import Mathlib

/- Shallow embedding of the mathmate-vision annotation-capture pipeline and
   its surrounding client-side bookkeeping. The embedding follows the source:
   LiveScreenPreview.tsx (circle overlay variant), the freehand overlay
   variant, Index.tsx (history bookkeeping) and the DavidChat widget.
   Pointer coordinates and DOM pixel sizes are modelled as exact rationals;
   the one place where JavaScript number semantics matter (division by a zero
   displayed size during capture) is modelled by an explicit JS value type
   with infinities and NaN. The square root used for the circle radius is a
   parameter of the pointer-move handler, so that theorems can assume its
   exactness at the inputs they use. -/

namespace MathmateVision

/- Data model, from the source interfaces. -/

/-- A pointer position in the displayed video element's coordinate space
(source: interface Point). -/
structure Point where
  x : ℚ
  y : ℚ
deriving DecidableEq

/-- A committed or in-progress circle annotation
(source: interface DrawingCircle, fields x, y, radius). -/
structure DrawingCircle where
  x : ℚ
  y : ℚ
  radius : ℚ
deriving DecidableEq

/-- A freehand annotation (source: interface DrawingPath, field points). -/
structure DrawingPath where
  points : List Point
deriving DecidableEq

/- Circle-variant component state: the useState hooks of
   LiveScreenPreview.tsx. The stream handle is modelled by the Bool
   hasStream (stream non-null). -/
structure CState where
  isSharing : Bool
  hasStream : Bool
  isDrawing : Bool
  drawStart : Option Point
  circles : List DrawingCircle
  currentCircle : Option DrawingCircle
  drawMode : Bool
deriving DecidableEq

/-- Initial hook values of the circle-variant component. -/
def initialCState : CState :=
  { isSharing := false, hasStream := false, isDrawing := false,
    drawStart := none, circles := [], currentCircle := none, drawMode := false }

/-- State writes of the successful branch of startScreenShare:
setStream(mediaStream); setIsSharing(true). Note that the committed circles
are not touched here. -/
def startScreenShareSuccess (s : CState) : CState :=
  { s with hasStream := true, isSharing := true }

/-- The onended listener registered on the video track in startScreenShare:
setIsSharing(false); setStream(null); setCircles([]). -/
def streamEndedHandler (s : CState) : CState :=
  { s with isSharing := false, hasStream := false, circles := [] }

/-- stopSharing: stop all tracks and drop the stream, then
setIsSharing(false); setCircles([]). -/
def stopSharing (s : CState) : CState :=
  { s with hasStream := false, isSharing := false, circles := [] }

/-- clearCircles: setCircles([]). -/
def clearCircles (s : CState) : CState :=
  { s with circles := [] }

/-- The draw-mode toggle button: setDrawMode(!drawMode). -/
def toggleDrawMode (s : CState) : CState :=
  { s with drawMode := !s.drawMode }

/-- handleMouseDown of the circle variant. The container rect is assumed
available (the ref points at the always-rendered container div); the point p
is the pointer position already translated into container coordinates. -/
def handleMouseDown (s : CState) (p : Point) : CState :=
  if !s.drawMode || !s.isSharing then s
  else { s with drawStart := some p, isDrawing := true }

/-- handleMouseMove of the circle variant: guarded by isDrawing and a
non-null drawStart only; recomputes the in-progress circle from the anchor
and the current pointer position. The square root sq stands for Math.sqrt. -/
def handleMouseMove (sq : ℚ → ℚ) (s : CState) (p : Point) : CState :=
  match s.isDrawing, s.drawStart with
  | true, some a =>
      let c : DrawingCircle :=
        { x := (a.x + p.x) / 2, y := (a.y + p.y) / 2,
          radius := sq ((p.x - a.x) ^ 2 + (p.y - a.y) ^ 2) / 2 }
      { s with currentCircle := some c }
  | _, _ => s

/-- handleMouseUp of the circle variant: append the in-progress circle when
its radius exceeds 10, then reset the drag state unconditionally. -/
def handleMouseUp (s : CState) : CState :=
  { s with
    circles :=
      match s.currentCircle with
      | some c => if 10 < c.radius then s.circles ++ [c] else s.circles
      | none => s.circles,
    isDrawing := false, drawStart := none, currentCircle := none }

/-- UI events that drive the circle-variant component. -/
inductive CEvent where
  | shareSuccess : CEvent
  | shareFail : CEvent
  | streamEnd : CEvent
  | stop : CEvent
  | toggleDraw : CEvent
  | down (p : Point) : CEvent
  | move (p : Point) : CEvent
  | up : CEvent
  | clear : CEvent
deriving DecidableEq

/-- One UI event step of the circle-variant component. A failed share
attempt only shows a toast and changes no state. -/
def cstep (sq : ℚ → ℚ) (s : CState) : CEvent → CState
  | .shareSuccess => startScreenShareSuccess s
  | .shareFail => s
  | .streamEnd => streamEndedHandler s
  | .stop => stopSharing s
  | .toggleDraw => toggleDrawMode s
  | .down p => handleMouseDown s p
  | .move p => handleMouseMove sq s p
  | .up => handleMouseUp s
  | .clear => clearCircles s

/-- Run a sequence of UI events from a state. -/
def crun (sq : ℚ → ℚ) (s : CState) (es : List CEvent) : CState :=
  es.foldl (cstep sq) s

/- Freehand-variant component state (the unnamed freehand LiveScreenPreview
   source file). -/
structure FState where
  isSharing : Bool
  hasStream : Bool
  isDrawing : Bool
  drawMode : Bool
  paths : List DrawingPath
  currentPath : List Point
deriving DecidableEq

/-- Initial hook values of the freehand-variant component. -/
def initialFState : FState :=
  { isSharing := false, hasStream := false, isDrawing := false,
    drawMode := false, paths := [], currentPath := [] }

/-- Successful startScreenShare branch of the freehand variant. -/
def fStartScreenShareSuccess (s : FState) : FState :=
  { s with hasStream := true, isSharing := true }

/-- The onended listener of the freehand variant: setIsSharing(false);
setStream(null); setPaths([]). -/
def fStreamEndedHandler (s : FState) : FState :=
  { s with isSharing := false, hasStream := false, paths := [] }

/-- stopSharing of the freehand variant. -/
def fStopSharing (s : FState) : FState :=
  { s with hasStream := false, isSharing := false, paths := [] }

/-- clearDrawings: setPaths([]); setCurrentPath([]). -/
def fClearDrawings (s : FState) : FState :=
  { s with paths := [], currentPath := [] }

/-- handleMouseDown of the freehand variant. -/
def fHandleMouseDown (s : FState) (p : Point) : FState :=
  if !s.drawMode || !s.isSharing then s
  else { s with currentPath := [p], isDrawing := true }

/-- handleMouseMove of the freehand variant: guarded by isDrawing and
drawMode only, appends the point to the in-progress path. -/
def fHandleMouseMove (s : FState) (p : Point) : FState :=
  if !s.isDrawing || !s.drawMode then s
  else { s with currentPath := s.currentPath ++ [p] }

/-- handleMouseUp of the freehand variant: keep the in-progress path when it
has more than one point, then reset the drag state unconditionally. -/
def fHandleMouseUp (s : FState) : FState :=
  { s with
    paths :=
      if 1 < s.currentPath.length then s.paths ++ [⟨s.currentPath⟩]
      else s.paths,
    isDrawing := false, currentPath := [] }

/- JavaScript number values as needed by the capture scaling arithmetic:
   exact rationals extended with the two infinities and NaN, so that the
   division videoWidth / offsetWidth is modelled faithfully when the
   displayed size is zero. -/
inductive JSVal where
  | fin : ℚ → JSVal
  | posInf : JSVal
  | negInf : JSVal
  | nan : JSVal
deriving DecidableEq

/-- Finiteness of a JS number value. -/
def JSVal.isFinite : JSVal → Bool
  | .fin _ => true
  | _ => false

/-- JavaScript division of two finite values: x / 0 is an infinity of the
sign of x, and 0 / 0 is NaN. -/
def jsDiv (a b : ℚ) : JSVal :=
  if b = 0 then
    if a = 0 then .nan else if 0 < a then .posInf else .negInf
  else .fin (a / b)

/-- JavaScript multiplication of a finite value by a possibly non-finite
scale factor. -/
def jsMulF (x : ℚ) : JSVal → JSVal
  | .fin s => .fin (x * s)
  | .posInf => if 0 < x then .posInf else if x < 0 then .negInf else .nan
  | .negInf => if 0 < x then .negInf else if x < 0 then .posInf else .nan
  | .nan => .nan

/-- Math.max on JS values: NaN propagates, otherwise the usual order with
infinities. -/
def jsMax : JSVal → JSVal → JSVal
  | .nan, _ => .nan
  | _, .nan => .nan
  | .posInf, _ => .posInf
  | _, .posInf => .posInf
  | .negInf, y => y
  | x, .negInf => x
  | .fin a, .fin b => .fin (max a b)

/-- The four size fields the capture code reads off the video element. -/
structure VideoDims where
  videoWidth : ℚ
  videoHeight : ℚ
  offsetWidth : ℚ
  offsetHeight : ℚ
deriving DecidableEq

/-- A circle as passed to ctx.arc during capture compositing, with possibly
non-finite scaled coordinates. -/
structure ScaledCircle where
  x : JSVal
  y : JSVal
  radius : JSVal
deriving DecidableEq

/-- The coordinate transform the capture code applies to a committed circle:
x and y are scaled per axis, the radius by the larger scale factor. -/
def scaleCircle (v : VideoDims) (c : DrawingCircle) : ScaledCircle :=
  let scaleX := jsDiv v.videoWidth v.offsetWidth
  let scaleY := jsDiv v.videoHeight v.offsetHeight
  { x := jsMulF c.x scaleX, y := jsMulF c.y scaleY,
    radius := jsMulF c.radius (jsMax scaleX scaleY) }

/-- Canvas arc semantics: an arc call with any non-finite argument is
ignored, so a scaled circle is actually drawn only when all three arguments
are finite. -/
def arcDrawn (c : ScaledCircle) : Bool :=
  c.x.isFinite && c.y.isFinite && c.radius.isFinite

/-- Observable outcome of a successful captureScreen run in the circle
variant: the offscreen canvas dimensions, the fact the video frame was
drawn at (0,0), and the list of arc calls issued for the committed
circles. -/
structure CaptureResult where
  canvasWidth : ℚ
  canvasHeight : ℚ
  frameDrawn : Bool
  strokedCircles : List ScaledCircle
deriving DecidableEq

/-- captureScreen of the circle variant. Early return (none) when the video
ref is null or no stream is held; silent skip (none) when no 2d context is
available; otherwise the frame is drawn and, when at least one circle is
committed, every committed circle is stroked at its scaled position. The
some result models the onCapture invocation with the serialized canvas. -/
def captureScreen (videoPresent streamActive : Bool) (v : VideoDims)
    (ctxOk : Bool) (circles : List DrawingCircle) : Option CaptureResult :=
  if !videoPresent || !streamActive then none
  else if ctxOk then
    some { canvasWidth := v.videoWidth, canvasHeight := v.videoHeight,
           frameDrawn := true,
           strokedCircles :=
             if 0 < circles.length then circles.map (scaleCircle v) else [] }
  else none

/-- A point as passed to ctx.moveTo / ctx.lineTo during capture compositing
in the freehand variant. -/
structure ScaledPoint where
  x : JSVal
  y : JSVal
deriving DecidableEq

/-- The per-axis coordinate transform of the freehand capture code. -/
def scalePoint (v : VideoDims) (p : Point) : ScaledPoint :=
  { x := jsMulF p.x (jsDiv v.videoWidth v.offsetWidth),
    y := jsMulF p.y (jsDiv v.videoHeight v.offsetHeight) }

/-- Canvas moveTo and lineTo semantics: a call with a non-finite argument is
ignored, so a scaled point contributes to the stroked path only when both
coordinates are finite. -/
def ptDrawn (p : ScaledPoint) : Bool :=
  p.x.isFinite && p.y.isFinite

/-- Observable outcome of a successful captureScreen run in the freehand
variant. -/
structure FCaptureResult where
  canvasWidth : ℚ
  canvasHeight : ℚ
  frameDrawn : Bool
  strokedPaths : List (List ScaledPoint)
deriving DecidableEq

/-- captureScreen of the freehand variant: same guards as the circle
variant; paths with fewer than 2 points are skipped inside the stroke
loop. -/
def captureScreenF (videoPresent streamActive : Bool) (v : VideoDims)
    (ctxOk : Bool) (paths : List DrawingPath) : Option FCaptureResult :=
  if !videoPresent || !streamActive then none
  else if ctxOk then
    some { canvasWidth := v.videoWidth, canvasHeight := v.videoHeight,
           frameDrawn := true,
           strokedPaths :=
             if 0 < paths.length then
               paths.filterMap (fun path =>
                 if path.points.length < 2 then none
                 else some (path.points.map (scalePoint v)))
             else [] }
  else none

/- Index.tsx: solved-problem history bookkeeping. -/

/-- One entry of the solved-problem history (source: interface
HistoryItem). The id and timestamp both come from the wall clock. -/
structure HistoryItem where
  id : Nat
  image : String
  solution : String
  timestamp : Nat
deriving DecidableEq

/-- Outcome of the analyze-math relay invocation as analyzeMathProblem
distinguishes it: the invocation threw (failure), the payload carried an
error field (dataError), or a solution came back (success). -/
inductive RelayResponse where
  | failure : RelayResponse
  | dataError (msg : String) : RelayResponse
  | success (solution : String) : RelayResponse
deriving DecidableEq

/-- The Index page state hooks. -/
structure IndexState where
  isLoading : Bool
  solution : Option String
  capturedImage : Option String
  history : List HistoryItem
deriving DecidableEq

/-- analyzeMathProblem of Index.tsx: set loading, reset the solution, store
the captured image; on success set the solution and prepend a new history
item keeping at most 20 entries; on a thrown invocation or an error payload
only show a toast; finally clear the loading flag. -/
def analyzeMathProblem (s : IndexState) (imageData : String)
    (resp : RelayResponse) (now : Nat) : IndexState :=
  let s1 : IndexState :=
    { s with isLoading := true, solution := none, capturedImage := some imageData }
  match resp with
  | .failure => { s1 with isLoading := false }
  | .dataError _ => { s1 with isLoading := false }
  | .success sol =>
      { s1 with
        solution := some sol,
        history :=
          ({ id := now, image := imageData, solution := sol, timestamp := now }
            :: s1.history).take 20,
        isLoading := false }

/-- clearHistory of Index.tsx. -/
def clearHistory (s : IndexState) : IndexState :=
  { s with history := [] }

/- DavidChat widget. -/

/-- JavaScript String.prototype.trim: drop leading and trailing whitespace
characters. -/
def jsTrim (s : String) : String :=
  ⟨((s.data.dropWhile Char.isWhitespace).reverse.dropWhile
      Char.isWhitespace).reverse⟩

/-- Chat message roles. -/
inductive Role where
  | user : Role
  | assistant : Role
deriving DecidableEq

/-- A chat message (source: interface Message). -/
structure ChatMessage where
  id : Nat
  role : Role
  content : String
  image : Option String
deriving DecidableEq

/-- The DavidChat state hooks. -/
structure ChatState where
  messages : List ChatMessage
  input : String
  isLoading : Bool
  pendingImage : Option String
deriving DecidableEq

/-- The synchronous prefix of DavidChat's sendMessage, up to the relay
invocation: early return when the trimmed input is empty and no image is
pending, or a request is in flight; otherwise build the user message (with
the default content when the trimmed input is empty), append it, clear the
input and the pending image, and set the loading flag. The second component
is the message sent, none on the early return. -/
def sendMessage (s : ChatState) (now : Nat) : ChatState × Option ChatMessage :=
  if (jsTrim s.input = "" ∧ s.pendingImage = none) ∨ s.isLoading = true then
    (s, none)
  else
    let userMessage : ChatMessage :=
      { id := now, role := .user,
        content := if jsTrim s.input = "" then "Check this problem" else jsTrim s.input,
        image := s.pendingImage }
    ({ s with messages := s.messages ++ [userMessage], input := "",
              pendingImage := none, isLoading := true },
     some userMessage)

/- Theorems. -/

/-- C2: whenever a UI event takes the circle-variant component from
isSharing true to isSharing false — which only the explicit stop action and
the external stream-ended event do — the committed shape set is empty
immediately afterwards; the freehand variant's stop action and stream-ended
handler likewise end sharing with an empty committed path set. -/
theorem sharingStop_clears_shapes (sq : ℚ → ℚ) (s : CState) (e : CEvent)
    (fs : FState)
    (hshare : s.isSharing = true) (hstop : (cstep sq s e).isSharing = false) :
    (cstep sq s e).circles = [] ∧
    ((fStopSharing fs).isSharing = false ∧ (fStopSharing fs).paths = []) ∧
    ((fStreamEndedHandler fs).isSharing = false ∧
      (fStreamEndedHandler fs).paths = []) := by
  refine ⟨?_, ⟨rfl, rfl⟩, ⟨rfl, rfl⟩⟩
  cases e <;>
    simp_all [cstep, startScreenShareSuccess, streamEndedHandler, stopSharing,
      toggleDrawMode, clearCircles, handleMouseDown, handleMouseMove,
      handleMouseUp] <;>
    (try split at hstop) <;> simp_all

/-- C2 witness: stopping from a concrete sharing state with a committed
circle leaves an empty committed set. -/
theorem sharingStop_clears_shapes_witness :
    (cstep (fun _ => 0)
      { isSharing := true, hasStream := true, isDrawing := false,
        drawStart := none, circles := [⟨1, 2, 30⟩], currentCircle := none,
        drawMode := false } CEvent.stop).circles = [] :=
  (sharingStop_clears_shapes (fun _ => 0)
    { isSharing := true, hasStream := true, isDrawing := false,
      drawStart := none, circles := [⟨1, 2, 30⟩], currentCircle := none,
      drawMode := false } CEvent.stop initialFState rfl rfl).1

/-- C3: on pointer release the in-progress shape is appended to the
committed set exactly when it meets the retention threshold — a circle with
radius strictly greater than 10, a freehand path with at least 2 points —
the committed set is unchanged otherwise, and the in-progress shape is
cleared unconditionally in both variants. -/
theorem commit_threshold (s : CState) (c : DrawingCircle) (fs : FState) :
    (handleMouseUp s).currentCircle = none ∧
    (s.currentCircle = none → (handleMouseUp s).circles = s.circles) ∧
    (s.currentCircle = some c → 10 < c.radius →
      (handleMouseUp s).circles = s.circles ++ [c]) ∧
    (s.currentCircle = some c → ¬ (10 < c.radius) →
      (handleMouseUp s).circles = s.circles) ∧
    (fHandleMouseUp fs).currentPath = [] ∧
    (2 ≤ fs.currentPath.length →
      (fHandleMouseUp fs).paths = fs.paths ++ [⟨fs.currentPath⟩]) ∧
    (fs.currentPath.length < 2 → (fHandleMouseUp fs).paths = fs.paths) := by
  refine ⟨rfl, ?_, ?_, ?_, rfl, ?_, ?_⟩
  · intro h; simp [handleMouseUp, h]
  · intro h hr; simp [handleMouseUp, h, hr]
  · intro h hr; simp [handleMouseUp, h, hr]
  · intro h
    have h1 : 1 < fs.currentPath.length := h
    simp [fHandleMouseUp, h1]
  · intro h
    have h1 : ¬ (1 < fs.currentPath.length) := by omega
    simp [fHandleMouseUp, h1]

/-- C3 witness: a circle of radius 20 is committed and the in-progress
circle cleared; a circle of radius 3 is discarded; a 2-point path is
committed; a 1-point path is discarded. -/
theorem commit_threshold_witness :
    (handleMouseUp
      { isSharing := true, hasStream := true, isDrawing := true,
        drawStart := some ⟨0, 0⟩, circles := [],
        currentCircle := some ⟨5, 5, 20⟩, drawMode := true }).circles
      = [⟨5, 5, 20⟩] ∧
    (handleMouseUp
      { isSharing := true, hasStream := true, isDrawing := true,
        drawStart := some ⟨0, 0⟩, circles := [⟨1, 1, 12⟩],
        currentCircle := some ⟨5, 5, 3⟩, drawMode := true }).circles
      = [⟨1, 1, 12⟩] ∧
    (fHandleMouseUp
      { isSharing := true, hasStream := true, isDrawing := true,
        drawMode := true, paths := [],
        currentPath := [⟨0, 0⟩, ⟨3, 4⟩] }).paths = [⟨[⟨0, 0⟩, ⟨3, 4⟩]⟩] ∧
    (fHandleMouseUp
      { isSharing := true, hasStream := true, isDrawing := true,
        drawMode := true, paths := [], currentPath := [⟨0, 0⟩] }).paths = [] := by
  refine ⟨?_, ?_, ?_, ?_⟩
  · exact (commit_threshold
      { isSharing := true, hasStream := true, isDrawing := true,
        drawStart := some ⟨0, 0⟩, circles := [],
        currentCircle := some ⟨5, 5, 20⟩, drawMode := true }
      ⟨5, 5, 20⟩ initialFState).2.2.1 rfl (by norm_num)
  · exact (commit_threshold
      { isSharing := true, hasStream := true, isDrawing := true,
        drawStart := some ⟨0, 0⟩, circles := [⟨1, 1, 12⟩],
        currentCircle := some ⟨5, 5, 3⟩, drawMode := true }
      ⟨5, 5, 3⟩ initialFState).2.2.2.1 rfl (by norm_num)
  · exact (commit_threshold initialCState ⟨0, 0, 0⟩
      { isSharing := true, hasStream := true, isDrawing := true,
        drawMode := true, paths := [],
        currentPath := [⟨0, 0⟩, ⟨3, 4⟩] }).2.2.2.2.2.1 (by norm_num)
  · exact (commit_threshold initialCState ⟨0, 0, 0⟩
      { isSharing := true, hasStream := true, isDrawing := true,
        drawMode := true, paths := [],
        currentPath := [⟨0, 0⟩] }).2.2.2.2.2.2 (by norm_num)

/-- C5: in circle mode a pointer move with anchor a and pointer position p
sets the in-progress circle to have center exactly the midpoint of a and p,
and radius exactly half the Euclidean distance between a and p (the radius
is non-negative and its double squares to the squared distance, given a
square root that is exact at that input); a subsequent release commits
exactly that circle when its radius exceeds 10. -/
theorem extend_midpoint_radius (sq : ℚ → ℚ) (s : CState) (a p : Point)
    (hdraw : s.isDrawing = true) (hanchor : s.drawStart = some a)
    (hnn : 0 ≤ sq ((p.x - a.x) ^ 2 + (p.y - a.y) ^ 2))
    (hexact : sq ((p.x - a.x) ^ 2 + (p.y - a.y) ^ 2) ^ 2
      = (p.x - a.x) ^ 2 + (p.y - a.y) ^ 2) :
    ∃ c : DrawingCircle,
      (handleMouseMove sq s p).currentCircle = some c ∧
      c.x = (a.x + p.x) / 2 ∧ c.y = (a.y + p.y) / 2 ∧
      0 ≤ c.radius ∧
      (2 * c.radius) ^ 2 = (p.x - a.x) ^ 2 + (p.y - a.y) ^ 2 ∧
      (10 < c.radius →
        (handleMouseUp (handleMouseMove sq s p)).circles
          = s.circles ++ [c]) := by
  obtain ⟨sh, hstr, sd, dst, circ, cur, dm⟩ := s
  simp only at hdraw hanchor
  subst hdraw
  subst hanchor
  refine ⟨_, rfl, rfl, rfl, ?_, ?_, ?_⟩
  · exact div_nonneg hnn (by norm_num)
  · have hr : (2 * (sq ((p.x - a.x) ^ 2 + (p.y - a.y) ^ 2) / 2)) ^ 2
        = sq ((p.x - a.x) ^ 2 + (p.y - a.y) ^ 2) ^ 2 := by ring
    simpa [hr] using hexact
  · intro hbig
    simp [handleMouseMove, handleMouseUp, hbig]

/-- C5 witness: dragging from the anchor (0,0) to (30,40) with an exact
square root at 2500 yields the in-progress circle centered at (15,20) with
radius 25, which a release then commits. -/
theorem extend_midpoint_radius_witness :
    (0 : ℚ) ≤ (fun _ => (50 : ℚ)) ((30 - 0 : ℚ) ^ 2 + (40 - 0 : ℚ) ^ 2) ∧
    ((fun _ => (50 : ℚ)) ((30 - 0 : ℚ) ^ 2 + (40 - 0 : ℚ) ^ 2)) ^ 2
      = (30 - 0 : ℚ) ^ 2 + (40 - 0 : ℚ) ^ 2 ∧
    ∃ c : DrawingCircle,
      (handleMouseMove (fun _ => (50 : ℚ))
        { isSharing := true, hasStream := true, isDrawing := true,
          drawStart := some ⟨0, 0⟩, circles := [], currentCircle := none,
          drawMode := true } ⟨30, 40⟩).currentCircle = some c ∧
      c.x = ((0 : ℚ) + 30) / 2 ∧ c.y = ((0 : ℚ) + 40) / 2 ∧
      0 ≤ c.radius ∧
      (2 * c.radius) ^ 2 = ((30 : ℚ) - 0) ^ 2 + ((40 : ℚ) - 0) ^ 2 ∧
      (10 < c.radius →
        (handleMouseUp (handleMouseMove (fun _ => (50 : ℚ))
          { isSharing := true, hasStream := true, isDrawing := true,
            drawStart := some ⟨0, 0⟩, circles := [], currentCircle := none,
            drawMode := true } ⟨30, 40⟩)).circles = [] ++ [c]) :=
  ⟨by norm_num, by norm_num,
    extend_midpoint_radius (fun _ => (50 : ℚ))
      { isSharing := true, hasStream := true, isDrawing := true,
        drawStart := some ⟨0, 0⟩, circles := [], currentCircle := none,
        drawMode := true } ⟨0, 0⟩ ⟨30, 40⟩ rfl rfl (by norm_num) (by norm_num)⟩

/-- C8: a successful analysis prepends the new history item, so the newest
entry is first, and the resulting history never exceeds 20 entries. -/
theorem history_capped (s : IndexState) (img sol : String) (now : Nat) :
    (analyzeMathProblem s img (.success sol) now).history
      = ({ id := now, image := img, solution := sol, timestamp := now }
          :: s.history).take 20 ∧
    (analyzeMathProblem s img (.success sol) now).history.head?
      = some { id := now, image := img, solution := sol, timestamp := now } ∧
    (analyzeMathProblem s img (.success sol) now).history.length ≤ 20 := by
  refine ⟨rfl, rfl, ?_⟩
  simp [analyzeMathProblem, List.length_take]

/-- C9: when the relay invocation throws, or its payload carries an error
field, analyzeMathProblem leaves the history untouched and the solution is
null afterwards, for every prior state. -/
theorem analyze_atomic_on_failure (s : IndexState) (img : String)
    (now : Nat) (e : String) :
    (analyzeMathProblem s img .failure now).history = s.history ∧
    (analyzeMathProblem s img .failure now).solution = none ∧
    (analyzeMathProblem s img (.dataError e) now).history = s.history ∧
    (analyzeMathProblem s img (.dataError e) now).solution = none :=
  ⟨rfl, rfl, rfl, rfl⟩

/-- C10: DavidChat's sendMessage returns with no state change when the
trimmed input is empty and no image is pending, or a request is in flight;
and when an image is pending with empty trimmed input, the user message
sent carries the default content. -/
theorem sendMessage_guard (s : ChatState) (now : Nat) :
    ((jsTrim s.input = "" ∧ s.pendingImage = none) →
      sendMessage s now = (s, none)) ∧
    (s.isLoading = true → sendMessage s now = (s, none)) ∧
    (∀ img : String, jsTrim s.input = "" → s.pendingImage = some img →
      s.isLoading = false →
      ∃ m : ChatMessage, (sendMessage s now).2 = some m ∧
        m.content = "Check this problem" ∧ m.image = some img ∧
        (sendMessage s now).1.messages = s.messages ++ [m] ∧
        (sendMessage s now).1.input = "" ∧
        (sendMessage s now).1.pendingImage = none) := by
  refine ⟨?_, ?_, ?_⟩
  · intro h; simp [sendMessage, h.1, h.2]
  · intro h; simp [sendMessage, h]
  · intro img h1 h2 h3
    refine ⟨⟨now, Role.user,
        if jsTrim s.input = "" then "Check this problem" else jsTrim s.input,
        s.pendingImage⟩, ?_, ?_, ?_, ?_, ?_, ?_⟩ <;>
      simp [sendMessage, h1, h2, h3]

/-- C10 witness: an empty input with no image is a no-op, a loading state is
a no-op, and a pending image with whitespace input sends the default
content. -/
theorem sendMessage_guard_witness :
    sendMessage ⟨[], "", false, none⟩ 0 = (⟨[], "", false, none⟩, none) ∧
    sendMessage ⟨[], "hi", true, none⟩ 1 = (⟨[], "hi", true, none⟩, none) ∧
    ∃ m : ChatMessage, (sendMessage ⟨[], "  ", false, some "img"⟩ 2).2 = some m ∧
      m.content = "Check this problem" ∧ m.image = some "img" ∧
      (sendMessage ⟨[], "  ", false, some "img"⟩ 2).1.messages = [] ++ [m] ∧
      (sendMessage ⟨[], "  ", false, some "img"⟩ 2).1.input = "" ∧
      (sendMessage ⟨[], "  ", false, some "img"⟩ 2).1.pendingImage = none :=
  ⟨(sendMessage_guard ⟨[], "", false, none⟩ 0).1 ⟨by decide, rfl⟩,
   (sendMessage_guard ⟨[], "hi", true, none⟩ 1).2.1 rfl,
   (sendMessage_guard ⟨[], "  ", false, some "img"⟩ 2).2.2 "img" (by decide) rfl rfl⟩

/-- C7 counterexample: begin a drag while sharing, let the stream end
externally (which sets isSharing to false without resetting the drag
flags), and move the pointer: the in-progress circle is mutated while
isSharing is false, and the following release even commits it. This
refutes the claim that the pointer handlers record no shape state whenever
isSharing is false. -/
theorem pointer_guard_counterexample :
    (crun (fun _ => 50) initialCState
      [CEvent.shareSuccess, CEvent.toggleDraw, CEvent.down ⟨0, 0⟩,
       CEvent.streamEnd]).isSharing = false ∧
    (crun (fun _ => 50) initialCState
      [CEvent.shareSuccess, CEvent.toggleDraw, CEvent.down ⟨0, 0⟩,
       CEvent.streamEnd]).currentCircle = none ∧
    (crun (fun _ => 50) initialCState
      [CEvent.shareSuccess, CEvent.toggleDraw, CEvent.down ⟨0, 0⟩,
       CEvent.streamEnd, CEvent.move ⟨30, 40⟩]).isSharing = false ∧
    (crun (fun _ => 50) initialCState
      [CEvent.shareSuccess, CEvent.toggleDraw, CEvent.down ⟨0, 0⟩,
       CEvent.streamEnd, CEvent.move ⟨30, 40⟩]).currentCircle
      = some ⟨15, 20, 25⟩ ∧
    (crun (fun _ => 50) initialCState
      [CEvent.shareSuccess, CEvent.toggleDraw, CEvent.down ⟨0, 0⟩,
       CEvent.streamEnd, CEvent.move ⟨30, 40⟩, CEvent.up]).circles
      = [⟨15, 20, 25⟩] := by
  refine ⟨rfl, rfl, rfl, ?_, ?_⟩ <;>
    norm_num [crun, cstep, initialCState, startScreenShareSuccess,
      toggleDrawMode, handleMouseDown, handleMouseMove, handleMouseUp,
      streamEndedHandler]

/-- C7 amended: while isSharing is false, begin (mouse down) is a no-op in
both variants regardless of draw mode; extend (mouse move) is a no-op
provided no drag is in progress; and with no in-progress shape a release
leaves the committed set unchanged. (The unamended claim fails because a
drag begun while sharing survives an external stream end, after which
mouse move still mutates the in-progress shape.) -/
theorem pointer_guard_amended (sq : ℚ → ℚ) (s : CState) (fs : FState)
    (p q : Point) (hs : s.isSharing = false) (hf : fs.isSharing = false) :
    handleMouseDown s p = s ∧
    (s.isDrawing = false → handleMouseMove sq s p = s) ∧
    (s.currentCircle = none → (handleMouseUp s).circles = s.circles) ∧
    fHandleMouseDown fs q = fs ∧
    (fs.isDrawing = false → fHandleMouseMove fs q = fs) := by
  refine ⟨?_, ?_, ?_, ?_, ?_⟩
  · simp [handleMouseDown, hs]
  · intro h
    obtain ⟨sh, hstr, sd, dst, circ, cur, dm⟩ := s
    simp only at h
    subst h
    cases dst <;> rfl
  · intro h
    simp [handleMouseUp, h]
  · simp [fHandleMouseDown, hf]
  · intro h
    simp [fHandleMouseMove, h]

/-- C7 amended witness: from the idle initial states the pointer handlers
change nothing. -/
theorem pointer_guard_amended_witness :
    handleMouseDown initialCState ⟨1, 1⟩ = initialCState ∧
    handleMouseMove (fun _ => 0) initialCState ⟨1, 1⟩ = initialCState ∧
    (handleMouseUp initialCState).circles = initialCState.circles ∧
    fHandleMouseDown initialFState ⟨2, 2⟩ = initialFState ∧
    fHandleMouseMove initialFState ⟨2, 2⟩ = initialFState :=
  ⟨(pointer_guard_amended (fun _ => 0) initialCState initialFState
      ⟨1, 1⟩ ⟨2, 2⟩ rfl rfl).1,
   (pointer_guard_amended (fun _ => 0) initialCState initialFState
      ⟨1, 1⟩ ⟨2, 2⟩ rfl rfl).2.1 rfl,
   (pointer_guard_amended (fun _ => 0) initialCState initialFState
      ⟨1, 1⟩ ⟨2, 2⟩ rfl rfl).2.2.1 rfl,
   (pointer_guard_amended (fun _ => 0) initialCState initialFState
      ⟨1, 1⟩ ⟨2, 2⟩ rfl rfl).2.2.2.1,
   (pointer_guard_amended (fun _ => 0) initialCState initialFState
      ⟨1, 1⟩ ⟨2, 2⟩ rfl rfl).2.2.2.2 rfl⟩

/- Helper lemmas about the JS value arithmetic during capture. -/

/-- Division by a zero displayed size is never finite. -/
theorem jsDiv_zero_not_finite (a : ℚ) : (jsDiv a 0).isFinite = false := by
  rw [jsDiv, if_pos rfl]
  split
  · rfl
  · split <;> rfl

/-- Multiplying a finite coordinate by a non-finite scale is never
finite. -/
theorem jsMulF_not_finite (x : ℚ) (v : JSVal) (h : v.isFinite = false) :
    (jsMulF x v).isFinite = false := by
  cases v with
  | fin q => simp [JSVal.isFinite] at h
  | posInf =>
      simp only [jsMulF]
      split
      · rfl
      · split <;> rfl
  | negInf =>
      simp only [jsMulF]
      split
      · rfl
      · split <;> rfl
  | nan => rfl

/-- With a zero displayed width or height, the arc call for a scaled circle
carries a non-finite argument and is ignored by the canvas. -/
theorem scaleCircle_not_drawn (v : VideoDims) (c : DrawingCircle)
    (h : v.offsetWidth = 0 ∨ v.offsetHeight = 0) :
    arcDrawn (scaleCircle v c) = false := by
  rcases h with h0 | h0
  · have hx : ((scaleCircle v c).x).isFinite = false := by
      simp only [scaleCircle]
      rw [h0]
      exact jsMulF_not_finite _ _ (jsDiv_zero_not_finite _)
    simp [arcDrawn, hx]
  · have hy : ((scaleCircle v c).y).isFinite = false := by
      simp only [scaleCircle]
      rw [h0]
      exact jsMulF_not_finite _ _ (jsDiv_zero_not_finite _)
    simp [arcDrawn, hy]

/-- With a zero displayed width or height, the moveTo and lineTo calls for a
scaled point carry a non-finite argument and are ignored by the canvas. -/
theorem scalePoint_not_drawn (v : VideoDims) (p : Point)
    (h : v.offsetWidth = 0 ∨ v.offsetHeight = 0) :
    ptDrawn (scalePoint v p) = false := by
  rcases h with h0 | h0
  · have hx : ((scalePoint v p).x).isFinite = false := by
      simp only [scalePoint]
      rw [h0]
      exact jsMulF_not_finite _ _ (jsDiv_zero_not_finite _)
    simp [ptDrawn, hx]
  · have hy : ((scalePoint v p).y).isFinite = false := by
      simp only [scalePoint]
      rw [h0]
      exact jsMulF_not_finite _ _ (jsDiv_zero_not_finite _)
    simp [ptDrawn, hy]

/-- C1 counterexample: with a zero displayed size and one committed circle,
capture does not skip shape compositing — the scale division by zero is
performed, yielding a non-finite scale, and the stroke loop still issues an
arc call for the circle. This refutes the claim that the division is
guarded and compositing skipped. -/
theorem capture_zero_display_counterexample :
    captureScreen true true ⟨1920, 1080, 0, 0⟩ true [⟨100, 100, 50⟩]
      = some ⟨1920, 1080, true,
          [⟨JSVal.posInf, JSVal.posInf, JSVal.posInf⟩]⟩ ∧
    (jsDiv 1920 0).isFinite = false := by
  refine ⟨?_, rfl⟩
  decide

/-- C1 amended: there is no displayed-size guard — the stroke loop runs for
every committed shape whenever any shape is committed — but with a zero
displayed width or height every stroke call carries a non-finite scaled
coordinate, which the canvas ignores, so no shape is effectively drawn
while the frame is still drawn and the image exported. -/
theorem capture_zero_display (v : VideoDims) (cs : List DrawingCircle)
    (ps : List DrawingPath)
    (h : v.offsetWidth = 0 ∨ v.offsetHeight = 0) :
    (∃ res : CaptureResult, captureScreen true true v true cs = some res ∧
      res.frameDrawn = true ∧
      ∀ sc ∈ res.strokedCircles, arcDrawn sc = false) ∧
    (∃ fres : FCaptureResult, captureScreenF true true v true ps = some fres ∧
      fres.frameDrawn = true ∧
      ∀ pts ∈ fres.strokedPaths, ∀ sp ∈ pts, ptDrawn sp = false) := by
  constructor
  · refine ⟨_, rfl, rfl, ?_⟩
    intro sc hsc
    simp only at hsc
    split at hsc
    · obtain ⟨c, hc, hceq⟩ := List.mem_map.mp hsc
      rw [← hceq]
      exact scaleCircle_not_drawn v c h
    · simp at hsc
  · refine ⟨_, rfl, rfl, ?_⟩
    intro pts hpts sp hsp
    simp only at hpts
    split at hpts
    · obtain ⟨path, hpath, hpeq⟩ := List.mem_filterMap.mp hpts
      by_cases hlen : path.points.length < 2
      · rw [if_pos hlen] at hpeq
        exact absurd hpeq (by simp)
      · rw [if_neg hlen] at hpeq
        have hpts2 : pts = path.points.map (scalePoint v) :=
          (Option.some_inj.mp hpeq).symm
        subst hpts2
        obtain ⟨p, hp, hpe⟩ := List.mem_map.mp hsp
        rw [← hpe]
        exact scalePoint_not_drawn v p h
    · simp at hpts

/-- C1 amended witness: a concrete capture at displayed size zero exports
the frame while every issued stroke call is ignored. -/
theorem capture_zero_display_witness :
    (∃ res : CaptureResult,
      captureScreen true true ⟨1920, 1080, 0, 360⟩ true [⟨100, 100, 50⟩]
        = some res ∧ res.frameDrawn = true ∧
      ∀ sc ∈ res.strokedCircles, arcDrawn sc = false) ∧
    (∃ fres : FCaptureResult,
      captureScreenF true true ⟨1920, 1080, 0, 360⟩ true [⟨[⟨1, 1⟩, ⟨2, 2⟩]⟩]
        = some fres ∧ fres.frameDrawn = true ∧
      ∀ pts ∈ fres.strokedPaths, ∀ sp ∈ pts, ptDrawn sp = false) :=
  capture_zero_display ⟨1920, 1080, 0, 360⟩ [⟨100, 100, 50⟩]
    [⟨[⟨1, 1⟩, ⟨2, 2⟩]⟩] (Or.inl rfl)

/-- Pointwise form of the capture scaling with a non-zero displayed size:
each axis is scaled by native over displayed, the radius by the larger
scale factor. -/
theorem scaleCircle_fin (v : VideoDims) (c : DrawingCircle)
    (hw : v.offsetWidth ≠ 0) (hh : v.offsetHeight ≠ 0) :
    scaleCircle v c
      = ⟨JSVal.fin (c.x * (v.videoWidth / v.offsetWidth)),
         JSVal.fin (c.y * (v.videoHeight / v.offsetHeight)),
         JSVal.fin (c.radius * max (v.videoWidth / v.offsetWidth)
           (v.videoHeight / v.offsetHeight))⟩ := by
  simp [scaleCircle, jsDiv, hw, hh, jsMulF, jsMax]

/-- Pointwise scaling of a freehand point with a non-zero displayed size. -/
theorem scalePoint_fin (v : VideoDims) (p : Point)
    (hw : v.offsetWidth ≠ 0) (hh : v.offsetHeight ≠ 0) :
    scalePoint v p
      = ⟨JSVal.fin (p.x * (v.videoWidth / v.offsetWidth)),
         JSVal.fin (p.y * (v.videoHeight / v.offsetHeight))⟩ := by
  simp [scalePoint, jsDiv, hw, hh, jsMulF]

/-- C4: with a non-zero displayed size, capture strokes every committed
shape with each stored coordinate transformed to (x*scaleX, y*scaleY) for
scaleX = videoWidth/displayedWidth and scaleY = videoHeight/displayedHeight,
and scales a circle radius by max(scaleX, scaleY). -/
theorem capture_scales_shapes (v : VideoDims) (cs : List DrawingCircle)
    (ps : List DrawingPath)
    (hw : v.offsetWidth ≠ 0) (hh : v.offsetHeight ≠ 0) :
    (∃ res : CaptureResult, captureScreen true true v true cs = some res ∧
      res.strokedCircles = cs.map (fun c =>
        ⟨JSVal.fin (c.x * (v.videoWidth / v.offsetWidth)),
         JSVal.fin (c.y * (v.videoHeight / v.offsetHeight)),
         JSVal.fin (c.radius * max (v.videoWidth / v.offsetWidth)
           (v.videoHeight / v.offsetHeight))⟩)) ∧
    (∃ fres : FCaptureResult, captureScreenF true true v true ps = some fres ∧
      fres.strokedPaths = ps.filterMap (fun path =>
        if path.points.length < 2 then none
        else some (path.points.map (fun p =>
          ⟨JSVal.fin (p.x * (v.videoWidth / v.offsetWidth)),
           JSVal.fin (p.y * (v.videoHeight / v.offsetHeight))⟩)))) := by
  have hsc : scaleCircle v = fun c =>
      (⟨JSVal.fin (c.x * (v.videoWidth / v.offsetWidth)),
        JSVal.fin (c.y * (v.videoHeight / v.offsetHeight)),
        JSVal.fin (c.radius * max (v.videoWidth / v.offsetWidth)
          (v.videoHeight / v.offsetHeight))⟩ : ScaledCircle) :=
    funext (fun c => scaleCircle_fin v c hw hh)
  have hsp : scalePoint v = fun p =>
      (⟨JSVal.fin (p.x * (v.videoWidth / v.offsetWidth)),
        JSVal.fin (p.y * (v.videoHeight / v.offsetHeight))⟩ : ScaledPoint) :=
    funext (fun p => scalePoint_fin v p hw hh)
  constructor
  · refine ⟨_, rfl, ?_⟩
    simp only [hsc]
    split
    · rfl
    · rename_i hlen
      have : cs = [] := List.length_eq_zero.mp (by omega)
      simp [this]
  · refine ⟨_, rfl, ?_⟩
    simp only [hsp]
    split
    · rfl
    · rename_i hlen
      have : ps = [] := List.length_eq_zero.mp (by omega)
      simp [this]

/-- C4 witness: at displayed size 640 by 360 and native size 1280 by 720
(scale two on both axes), a committed freehand point (100,100) is stroked
at (200,200) in the exported bitmap. -/
theorem capture_scales_shapes_witness :
    ((640 : ℚ) ≠ 0) ∧ ((360 : ℚ) ≠ 0) ∧
    (∃ res : CaptureResult,
      captureScreen true true ⟨1280, 720, 640, 360⟩ true [⟨100, 100, 50⟩]
        = some res ∧
      res.strokedCircles = [(⟨100, 100, 50⟩ : DrawingCircle)].map (fun c =>
        ⟨JSVal.fin (c.x * ((1280 : ℚ) / 640)),
         JSVal.fin (c.y * ((720 : ℚ) / 360)),
         JSVal.fin (c.radius * max ((1280 : ℚ) / 640) ((720 : ℚ) / 360))⟩)) ∧
    (∃ fres : FCaptureResult,
      captureScreenF true true ⟨1280, 720, 640, 360⟩ true
        [⟨[⟨100, 100⟩, ⟨150, 100⟩]⟩] = some fres ∧
      fres.strokedPaths = [(⟨[⟨100, 100⟩, ⟨150, 100⟩]⟩ : DrawingPath)].filterMap
        (fun path =>
          if path.points.length < 2 then none
          else some (path.points.map (fun p =>
            ⟨JSVal.fin (p.x * ((1280 : ℚ) / 640)),
             JSVal.fin (p.y * ((720 : ℚ) / 360))⟩)))) ∧
    captureScreenF true true ⟨1280, 720, 640, 360⟩ true
        [⟨[⟨100, 100⟩, ⟨150, 100⟩]⟩]
      = some ⟨1280, 720, true,
          [[⟨JSVal.fin 200, JSVal.fin 200⟩, ⟨JSVal.fin 300, JSVal.fin 200⟩]]⟩ :=
  ⟨by norm_num, by norm_num,
   (capture_scales_shapes ⟨1280, 720, 640, 360⟩ [⟨100, 100, 50⟩]
      [⟨[⟨100, 100⟩, ⟨150, 100⟩]⟩] (by norm_num) (by norm_num)).1,
   (capture_scales_shapes ⟨1280, 720, 640, 360⟩ [⟨100, 100, 50⟩]
      [⟨[⟨100, 100⟩, ⟨150, 100⟩]⟩] (by norm_num) (by norm_num)).2,
   by norm_num [captureScreenF, scalePoint, jsDiv, jsMulF, List.filterMap_cons]⟩

/-- C6 counterexample: with an active stream and a mounted video element
whose playback has not begun (native dimensions still zero), capture is not
a no-op — the callback is invoked with a degenerate 0 by 0 canvas. This
refutes the claim that the operation is a no-op when playback has not
started. -/
theorem capture_noop_counterexample :
    captureScreen true true ⟨0, 0, 640, 360⟩ true [] = some ⟨0, 0, true, []⟩ := by
  decide

/-- C6 amended: capture is a silent no-op — no callback invocation and no
exception — when no stream is active, when the video element is absent, or
when no 2d canvas context is available; the playback state is not
consulted. -/
theorem capture_noop_guards (v : VideoDims) (cs : List DrawingCircle)
    (ps : List DrawingPath) (vp sa ctx : Bool) :
    (sa = false → captureScreen vp sa v ctx cs = none) ∧
    (vp = false → captureScreen vp sa v ctx cs = none) ∧
    (ctx = false → captureScreen vp sa v ctx cs = none) ∧
    (sa = false → captureScreenF vp sa v ctx ps = none) ∧
    (vp = false → captureScreenF vp sa v ctx ps = none) ∧
    (ctx = false → captureScreenF vp sa v ctx ps = none) := by
  refine ⟨?_, ?_, ?_, ?_, ?_, ?_⟩ <;> intro h <;> subst h
  · cases vp <;> simp [captureScreen]
  · simp [captureScreen]
  · cases vp <;> cases sa <;> simp [captureScreen]
  · cases vp <;> simp [captureScreenF]
  · simp [captureScreenF]
  · cases vp <;> cases sa <;> simp [captureScreenF]

/-- C6 amended witness: concrete no-op captures for a missing stream, a
missing video element and a missing context. -/
theorem capture_noop_guards_witness :
    captureScreen true false ⟨1920, 1080, 640, 360⟩ true [] = none ∧
    captureScreen false true ⟨1920, 1080, 640, 360⟩ true [] = none ∧
    captureScreen true true ⟨1920, 1080, 640, 360⟩ false [] = none ∧
    captureScreenF true false ⟨1920, 1080, 640, 360⟩ true [] = none ∧
    captureScreenF false true ⟨1920, 1080, 640, 360⟩ true [] = none ∧
    captureScreenF true true ⟨1920, 1080, 640, 360⟩ false [] = none :=
  ⟨(capture_noop_guards ⟨1920, 1080, 640, 360⟩ [] [] true false true).1 rfl,
   (capture_noop_guards ⟨1920, 1080, 640, 360⟩ [] [] false true true).2.1 rfl,
   (capture_noop_guards ⟨1920, 1080, 640, 360⟩ [] [] true true false).2.2.1 rfl,
   (capture_noop_guards ⟨1920, 1080, 640, 360⟩ [] [] true false true).2.2.2.1 rfl,
   (capture_noop_guards ⟨1920, 1080, 640, 360⟩ [] [] false true true).2.2.2.2.1 rfl,
   (capture_noop_guards ⟨1920, 1080, 640, 360⟩ [] [] true true false).2.2.2.2.2 rfl⟩

end MathmateVision
